import Mathlib

/-!
Verification of the per-user sequential forwarding pipeline of the
Bidhaan-forwad bot (`main.py`), as a shallow embedding in Lean 4.

The embedding models, faithfully to the Python source:
* `copyMessageWithMedia` — the copy executor `ForwardBot._copy_message_with_media`
  (main.py 1685-2084): download retry loop, per-attempt thumbnail extraction,
  upload retry loop, caption-only degradation, direct-reference last resort,
  and which temporary files are created and deleted on each path;
* `processJob` / `drainLoop` — one iteration and the whole body of
  `ForwardBot.process_message_queue` (main.py 233-329): mode selection,
  restricted-content handling, forward-with-copy-fallback, the
  `db.increment_forwards()` call site, the skip when the user client is
  unavailable, the per-job exception boundary, and the poison pill;
* the queue supervisor — the check-and-create logic of
  `handle_user_channel_message` (main.py 1640-1664) plus the teardown in
  `cmd_logout` (main.py 854-870), as a small transition system;
* `cooldownStep` / `runCooldown` — the 300-second ignored-channel cooldown
  (main.py 1596-1621);
* `handleNewMessage` — the dispatch order of `ForwardBot.handle_new_message`
  (main.py 388-482), in particular that the ban check precedes every handler.

External collaborators (the Telethon client, the Mongo-backed `Database`) are
represented by their outcomes: each network call in an executor run is an
entry of an environment record saying whether that call succeeds, and the
counter is represented by whether `increment_forwards` is invoked.
-/

/-! ## Messages and media (the fields of `event.message` the pipeline reads) -/

/-- Media attached to a message: a Telethon document (which may carry
thumbnails, main.py 1913), a photo, or some other media object. -/
inductive Media
  | document (hasThumbs : Bool)
  | photo
  | other
deriving DecidableEq

/-- Whether the upload loop extracts a thumbnail for this media:
main.py 1905/1913 requires a document with a nonempty `thumbs` list. -/
def Media.extractsThumb : Media → Bool
  | .document ht => ht
  | _ => false

/-- The fields of a Telegram message that the forwarding pipeline inspects. -/
structure Message where
  msgId : Nat
  message : Option String
  text : Option String
  media : Option Media
  restrictionReason : Bool
  noforwards : Bool
deriving DecidableEq

/-- Python `a or b` on an optional string: `None` and `""` are falsy. -/
def strOr (a : Option String) (b : String) : String :=
  match a with
  | some s => if s = "" then b else s
  | none => b

/-- `text = message.message or message.text or ""` (main.py 1695). -/
def getText (m : Message) : String := strOr m.message (strOr m.text "")

/-- main.py 274-279: restricted when `restriction_reason` is truthy or the
`noforwards` flag is set. -/
def isRestricted (m : Message) : Bool := m.restrictionReason || m.noforwards

/-! ## The copy executor `_copy_message_with_media` -/

/-- Temporary files the executor can create: the downloaded media file
(`temp_path`, main.py 1719) and one thumbnail file per upload attempt
(`thumb_path`, main.py 1916; the path carries a fresh timestamp). -/
inductive FileTag
  | mediaFile
  | thumbFile (attempt : Nat)
deriving DecidableEq

/-- Deliveries issued to the destination channel during one executor run. -/
inductive SendEvent
  | progressMessage
  | mediaSend (caption : Option String)
  | directRefSend (text : String)
  | textSend (text : String)
  | forwardSend
deriving DecidableEq

/-- Outcomes of the external calls made during one executor run: whether
download attempt `i` returns a file, whether the thumbnail extraction of
upload attempt `i` succeeds, whether upload attempt `i` succeeds, and whether
the three degraded sends (caption-only, direct media reference, last-resort
text) succeed or raise. -/
structure ExecEnv where
  downloadOk : Nat → Bool
  thumbOk : Nat → Bool
  uploadOk : Nat → Bool
  textSendOk : Bool
  directRefOk : Bool
  textSend2Ok : Bool

/-- `max_download_retries` (main.py 1759). -/
def maxDownloadRetries : Nat := 3

/-- `max_upload_retries` (main.py 1884). -/
def maxUploadRetries : Nat := 3

/-- The download retry loop (main.py 1762-1792): attempts run in order and
stop at the first one that returns a path; the run succeeds when some attempt
within the budget does. -/
def anyAttemptOk (f : Nat → Bool) : Nat → Nat → Bool
  | 0, _ => false
  | fuel + 1, i => f i || anyAttemptOk f fuel (i + 1)

/-- Result of the upload retry loop. -/
structure UploadOut where
  sends : List SendEvent
  created : List FileTag
  deleted : List FileTag
  success : Bool
deriving DecidableEq

/-- The upload retry loop (main.py 1895-2010). Each attempt first extracts a
fresh thumbnail when the media is a document with thumbs (main.py 1913-1924),
then calls `send_file`; on success the thumbnail of that attempt is removed
(main.py 1969-1975) and the loop stops; on failure the loop retries, and the
failed attempt's thumbnail is not removed. -/
def uploadLoop (media : Media) (env : ExecEnv) (text : String) : Nat → Nat → UploadOut
  | 0, _ => { sends := [], created := [], deleted := [], success := false }
  | fuel + 1, i =>
    let tc : List FileTag :=
      if media.extractsThumb && env.thumbOk i then [.thumbFile i] else []
    if env.uploadOk i then
      { sends := [.mediaSend (if text = "" then none else some text)],
        created := tc, deleted := tc, success := true }
    else
      let rest := uploadLoop media env text fuel (i + 1)
      { sends := rest.sends, created := tc ++ rest.created,
        deleted := rest.deleted, success := rest.success }

/-- What one call of `_copy_message_with_media` did: deliveries issued,
temporary files created and deleted, and whether the call raised (the outer
handler at main.py 2080-2084 re-raises anything that reaches it). -/
structure ExecResult where
  sends : List SendEvent
  filesCreated : List FileTag
  filesDeleted : List FileTag
  raised : Bool
deriving DecidableEq

/-- `ForwardBot._copy_message_with_media` (main.py 1685-2084).

With media: a progress message is sent (main.py 1710), then the download
retry loop runs. If some download attempt succeeds the media file exists,
the upload retry loop runs, and afterwards the media file is removed
(main.py 2025-2030) — the call returns normally whether or not the upload
succeeded. If every download attempt fails (main.py 2031-2042) the caption
alone is sent when nonempty; if that send raises, the handler at
main.py 2044-2070 tries a direct media reference, then a last-resort text
send, and only when all of those fail does the call raise.

Without media: the text is sent when nonempty (main.py 2072-2075, raising on
failure), and an empty message is skipped silently (main.py 2077-2078). -/
def copyMessageWithMedia (m : Message) (env : ExecEnv) : ExecResult :=
  let text := getText m
  match m.media with
  | some media =>
    if anyAttemptOk env.downloadOk maxDownloadRetries 0 then
      let up := uploadLoop media env text maxUploadRetries 0
      { sends := .progressMessage :: up.sends,
        filesCreated := .mediaFile :: up.created,
        filesDeleted := up.deleted ++ [.mediaFile],
        raised := false }
    else if text = "" then
      { sends := [.progressMessage], filesCreated := [], filesDeleted := [],
        raised := false }
    else if env.textSendOk then
      { sends := [.progressMessage, .textSend text], filesCreated := [],
        filesDeleted := [], raised := false }
    else if env.directRefOk then
      { sends := [.progressMessage, .directRefSend text], filesCreated := [],
        filesDeleted := [], raised := false }
    else if env.textSend2Ok then
      { sends := [.progressMessage, .textSend text], filesCreated := [],
        filesDeleted := [], raised := false }
    else
      { sends := [.progressMessage], filesCreated := [], filesDeleted := [],
        raised := true }
  | none =>
    if text = "" then
      { sends := [], filesCreated := [], filesDeleted := [], raised := false }
    else if env.textSendOk then
      { sends := [.textSend text], filesCreated := [], filesDeleted := [],
        raised := false }
    else
      { sends := [], filesCreated := [], filesDeleted := [], raised := true }

/-- Temporary files still on disk after the call: created but never removed. -/
def filesRemaining (r : ExecResult) : List FileTag :=
  r.filesCreated.filter fun t => decide (t ∉ r.filesDeleted)

/-! ## One drain-loop iteration of `process_message_queue` -/

/-- One queued unit of work, as read back out of `message_data`
(main.py 250-256): the matched source channel's configured mode
(`source_channel.get('forward_mode', 'copy')`, main.py 272) and the message. -/
structure Job where
  forwardMode : String
  msg : Message
deriving DecidableEq

/-- Outcomes of the external calls made while processing one job: whether
`get_user_client` returns a client (main.py 266-269), whether
`forward_messages` succeeds (main.py 293-296), and the environments of the
copy call on the copy path and of the fallback copy call. -/
structure JobEnv where
  clientAvailable : Bool
  forwardOk : Bool
  copyEnv : ExecEnv
  fallbackEnv : ExecEnv

/-- Executor invocations made for one job: `forward_messages` or
`_copy_message_with_media` with its `force_download` argument. -/
inductive ExecCall
  | forwardCall
  | copyCall (forceDownload : Bool)
deriving DecidableEq

/-- What one drain-loop iteration did for one job: which executor calls it
made, what was delivered, whether `db.increment_forwards()` ran
(main.py 309), and whether an exception reached the per-job handler at
main.py 315 (where it is caught and logged, never propagated). -/
structure JobResult where
  execCalls : List ExecCall
  sends : List SendEvent
  incremented : Bool
  raised : Bool
deriving DecidableEq

/-- One iteration of the drain loop body (main.py 258-323). When the user
client is unavailable the job is skipped (`continue`, main.py 269). On the
copy path (`forward_mode == 'copy' or is_restricted`, main.py 281) the copy
executor runs with `force_download = is_restricted` (main.py 283-288).
Otherwise `forward_messages` is tried and, on any exception, the copy
executor runs as fallback with `force_download = True` (main.py 292-305).
`db.increment_forwards()` runs exactly when control reaches main.py 309,
i.e. when no exception escaped the chosen executor calls. -/
def processJob (job : Job) (env : JobEnv) : JobResult :=
  if !env.clientAvailable then
    { execCalls := [], sends := [], incremented := false, raised := false }
  else if job.forwardMode = "copy" || isRestricted job.msg then
    let r := copyMessageWithMedia job.msg env.copyEnv
    { execCalls := [.copyCall (isRestricted job.msg)], sends := r.sends,
      incremented := !r.raised, raised := r.raised }
  else if env.forwardOk then
    { execCalls := [.forwardCall], sends := [.forwardSend],
      incremented := true, raised := false }
  else
    let r := copyMessageWithMedia job.msg env.fallbackEnv
    { execCalls := [.forwardCall, .copyCall true], sends := r.sends,
      incremented := !r.raised, raised := r.raised }

/-- Whether the executor call chain chosen for this job returns without
raising — the condition under which control reaches main.py 307-309. Stated
independently of `processJob`, directly from the executor model. -/
def executorReturnsNormally (job : Job) (env : JobEnv) : Bool :=
  if job.forwardMode = "copy" || isRestricted job.msg then
    !(copyMessageWithMedia job.msg env.copyEnv).raised
  else if env.forwardOk then
    true
  else
    !(copyMessageWithMedia job.msg env.fallbackEnv).raised

/-- The whole drain loop (main.py 241-329) over the queue contents: entries
are either a `message_data` job (paired with the outcomes of its external
calls) or the `None` poison pill, on which the loop breaks (main.py 246-248). -/
def drainLoop : List (Option (Job × JobEnv)) → List JobResult
  | [] => []
  | none :: _ => []
  | some (j, e) :: rest => processJob j e :: drainLoop rest

/-- The jobs on which an executor was actually invoked, in invocation order. -/
def invokedJobs : List (Option (Job × JobEnv)) → List Job
  | [] => []
  | none :: _ => []
  | some (j, e) :: rest =>
    (if (processJob j e).execCalls.isEmpty then [] else [j]) ++ invokedJobs rest

/-! ## The ignored-channel cooldown (main.py 1596-1621) -/

/-- One unmatched inbound event for a channel whose cooldown state is
`last` (the recorded last-warning time, if any), arriving at time `now`:
returns whether a warning is emitted and the new state. Within 300 seconds
of the last warning the event is silently dropped and the state is left
unchanged (main.py 1607-1613); otherwise a warning is logged and the
timestamp recorded (main.py 1615-1617). -/
def cooldownStep (last : Option Nat) (now : Nat) : Bool × Option Nat :=
  match last with
  | some lastWarn => if now - lastWarn < 300 then (false, some lastWarn) else (true, some now)
  | none => (true, some now)

/-- Feed a sequence of unmatched-event times through the cooldown, returning
the times at which a warning was emitted. -/
def runCooldown (st : Option Nat) : List Nat → List Nat
  | [] => []
  | t :: ts =>
    let r := cooldownStep st t
    if r.1 then t :: runCooldown r.2 ts else runCooldown r.2 ts

/-! ## The queue supervisor (main.py 49-51, 854-870, 1640-1664) -/

/-- One processor task ever created by `asyncio.create_task`
(main.py 1648): the user it drains for, a unique task identity, and whether
the task has completed (`Task.done()`). -/
structure WorkerRec where
  uid : Nat
  wid : Nat
  done : Bool
deriving DecidableEq

/-- The supervisor's shared state: `queue_processors` (`handle`, mapping a
user to the identity of the task currently stored for them),
`message_queues` (`queues`, holding queued job ids), the record of every task
ever spawned, and a counter supplying fresh task identities. -/
structure SupSt where
  nextWid : Nat
  workers : List WorkerRec
  handle : Nat → Option Nat
  queues : Nat → List Nat

/-- Initial state: no queues, no processors. -/
def supInit : SupSt :=
  { nextWid := 0, workers := [], handle := fun _ => none, queues := fun _ => [] }

/-- `self.queue_processors[user_id].done()`, looking a task identity up in
the spawn record (an identity that was never spawned counts as done). -/
def widDoneIn : List WorkerRec → Nat → Bool
  | [], _ => true
  | w :: ws, wid => if w.wid = wid then w.done else widDoneIn ws wid

/-- The check-and-create guard of main.py 1647:
`user_id not in self.queue_processors or self.queue_processors[user_id].done()`. -/
def needSpawn (st : SupSt) (uid : Nat) : Bool :=
  match st.handle uid with
  | none => true
  | some wid => widDoneIn st.workers wid

/-- Routing one matched event for `uid` (main.py 1640-1662): when the guard
holds, create exactly one new processor task and store its handle; then
append the job to the user's queue. The check and the creation contain no
await point, so they execute atomically on the single asyncio loop. -/
def routeEv (st : SupSt) (uid jid : Nat) : SupSt :=
  let st1 :=
    if needSpawn st uid then
      { st with nextWid := st.nextWid + 1,
                workers := ⟨uid, st.nextWid, false⟩ :: st.workers,
                handle := fun u => if u = uid then some st.nextWid else st.handle u }
    else st
  { st1 with queues := fun u => if u = uid then st1.queues u ++ [jid] else st1.queues u }

/-- Mark the task with identity `wid` completed (it observed the poison pill
and broke out of its loop, main.py 246-248). -/
def setDone (wid : Nat) (w : WorkerRec) : WorkerRec :=
  if w.wid = wid then { w with done := true } else w

/-- Mark every task of `uid` completed: `cmd_logout` (main.py 854-870) pushes
the poison pill and `asyncio.wait_for(..., timeout=10)` either sees the task
finish or cancels it, so the user's task terminates. -/
def setDoneUser (uid : Nat) (w : WorkerRec) : WorkerRec :=
  if w.uid = uid then { w with done := true } else w

/-- Supervisor events: a matched inbound message routed for a user, a
processor task completing, and the logout teardown (which also deletes the
`queue_processors` and `message_queues` entries, main.py 864-870). -/
inductive SupEvent
  | route (uid : Nat) (jid : Nat)
  | workerDone (wid : Nat)
  | shutdown (uid : Nat)

/-- Apply one supervisor event. -/
def applyEvent (st : SupSt) (e : SupEvent) : SupSt :=
  match e with
  | .route uid jid => routeEv st uid jid
  | .workerDone wid => { st with workers := st.workers.map (setDone wid) }
  | .shutdown uid =>
      { st with workers := st.workers.map (setDoneUser uid),
                handle := fun u => if u = uid then none else st.handle u,
                queues := fun u => if u = uid then [] else st.queues u }

/-- The supervisor state after a sequence of events from startup. -/
def runSup (es : List SupEvent) : SupSt := es.foldl applyEvent supInit

/-- Whether this spawned task is still running and draining for `uid`. -/
def isLiveFor (uid : Nat) (w : WorkerRec) : Bool := decide (w.uid = uid) && !w.done

/-- How many processor tasks for `uid` are currently running. -/
def liveCount (st : SupSt) (uid : Nat) : Nat :=
  (st.workers.filter (isLiveFor uid)).length

/-! ## Private-message dispatch `handle_new_message` (main.py 388-482) -/

/-- The per-user flag dictionaries and ban state that the dispatcher reads. -/
structure BotState where
  banned : Bool
  awaitingCode : Bool
  awaitingPassword : Bool
  awaitingBroadcast : Bool
  isOwner : Bool
  awaitingSourceForward : Bool
  awaitingDestinationForward : Bool
  awaitingLogin : Bool
deriving DecidableEq

/-- The fields of an inbound private message the dispatcher inspects. -/
structure PrivMsg where
  isPrivate : Bool
  isForward : Bool
  text : Option String
deriving DecidableEq

/-- What `handle_new_message` does with one message: which single handler
(or reply) the dispatch reaches. -/
inductive BotAction
  | ignore
  | banNotice
  | verificationCode
  | twoFaPassword
  | broadcast
  | silentReturn
  | forwardedSetup
  | channelLink
  | command
  | phoneLogin
  | defaultReply
deriving DecidableEq

/-- Python truthiness of `event.message.text`. -/
def textNonempty (t : Option String) : Bool :=
  match t with
  | some s => if s = "" then false else true
  | none => false

/-- `event.message.text and event.message.text.startswith(p)`. -/
def textStarts (t : Option String) (p : String) : Bool :=
  match t with
  | some s => if s = "" then false else s.startsWith p
  | none => false

/-- The dispatch order of `ForwardBot.handle_new_message` (main.py 388-482):
non-private messages are ignored (391); the ban check (412-434) answers with
the ban notice and returns before any other handler; then, in order: the
verification-code and 2FA handlers (437-443), the broadcast handler
(446-449, owner only — a non-owner with the flag set gets a silent return),
forwarded-message channel setup (452-454), channel-link setup (457-462),
command dispatch (465-467), the phone-number login step (470-473), and the
default reply (476-479). -/
def handleNewMessage (st : BotState) (m : PrivMsg) : BotAction :=
  if !m.isPrivate then .ignore
  else if st.banned then .banNotice
  else if st.awaitingCode then .verificationCode
  else if st.awaitingPassword then .twoFaPassword
  else if st.awaitingBroadcast then
    (if st.isOwner then .broadcast else .silentReturn)
  else if m.isForward then .forwardedSetup
  else if textNonempty m.text && (st.awaitingSourceForward || st.awaitingDestinationForward) then
    .channelLink
  else if textStarts m.text "/" then .command
  else if textStarts m.text "+" && st.awaitingLogin then .phoneLogin
  else .defaultReply

/-! ## Invariant predicate and concrete instances used by the theorems -/

/-- Supervisor invariant: every spawned task identity is below the fresh
counter, task identities are distinct, and every running task is the one
stored in `queue_processors` for its user. -/
def SupInv (st : SupSt) : Prop :=
  (∀ w ∈ st.workers, w.wid < st.nextWid) ∧
  List.Pairwise (fun a b => a.wid ≠ b.wid) st.workers ∧
  (∀ w ∈ st.workers, w.done = false → st.handle w.uid = some w.wid)

/-- An environment in which every external call succeeds. -/
def envAllOk : ExecEnv :=
  { downloadOk := fun _ => true, thumbOk := fun _ => true,
    uploadOk := fun _ => true, textSendOk := true, directRefOk := true,
    textSend2Ok := true }

/-- Every download attempt times out; everything else succeeds. -/
def envNoDownload : ExecEnv := { envAllOk with downloadOk := fun _ => false }

/-- Every upload attempt fails; download and thumbnail extraction succeed. -/
def envNoUpload : ExecEnv := { envAllOk with uploadOk := fun _ => false }

/-- Every delivery call raises (used to make the copy executor raise). -/
def envNoSends : ExecEnv :=
  { envAllOk with textSendOk := false, directRefOk := false, textSend2Ok := false }

/-- A plain unrestricted text message. -/
def plainTextMsg (i : Nat) (s : String) : Message :=
  { msgId := i, message := some s, text := none, media := none,
    restrictionReason := false, noforwards := false }

/-- A copy-mode media job whose message is a document with caption. -/
def c1Job : Job :=
  { forwardMode := "copy",
    msg := { msgId := 11, message := some "caption", text := none,
             media := some (.document false), restrictionReason := false,
             noforwards := false } }

/-- Client available, downloads all time out, caption send succeeds. -/
def c1Env : JobEnv :=
  { clientAvailable := true, forwardOk := true, copyEnv := envNoDownload,
    fallbackEnv := envAllOk }

def c2Job1 : Job := { forwardMode := "copy", msg := plainTextMsg 1 "a" }

def c2Job2 : Job := { forwardMode := "copy", msg := plainTextMsg 2 "b" }

/-- `get_user_client` returns `None` while this job is processed. -/
def c2EnvU : JobEnv :=
  { clientAvailable := false, forwardOk := true, copyEnv := envAllOk,
    fallbackEnv := envAllOk }

/-- The user client is available and all calls succeed. -/
def c2EnvA : JobEnv :=
  { clientAvailable := true, forwardOk := true, copyEnv := envAllOk,
    fallbackEnv := envAllOk }

def c4Job : Job := { forwardMode := "copy", msg := plainTextMsg 4 "x" }

/-- An environment in which the copy executor raises: the text send and both
last-resort deliveries fail. -/
def c4Env : JobEnv :=
  { clientAvailable := true, forwardOk := true, copyEnv := envNoSends,
    fallbackEnv := envAllOk }

/-- A forward-mode job carrying the protocol-level no-forward flag. -/
def c5Job : Job :=
  { forwardMode := "forward",
    msg := { msgId := 5, message := some "t", text := none, media := none,
             restrictionReason := false, noforwards := true } }

def c5Env : JobEnv := c2EnvA

def c6Job : Job := { forwardMode := "forward", msg := plainTextMsg 6 "y" }

/-- The reference-forward attempt raises; the fallback copy succeeds. -/
def c6Env : JobEnv :=
  { clientAvailable := true, forwardOk := false, copyEnv := envAllOk,
    fallbackEnv := envAllOk }

/-- A captioned document with thumbnails. -/
def c8Msg : Message :=
  { msgId := 8, message := some "v", text := none,
    media := some (.document true), restrictionReason := false,
    noforwards := false }

/-- Download succeeds, every upload attempt fails, thumbnails extract. -/
def c8Env : ExecEnv := envNoUpload

/-- A job whose message has no media and no text or caption. -/
def c9Job : Job :=
  { forwardMode := "copy",
    msg := { msgId := 9, message := none, text := none, media := none,
             restrictionReason := false, noforwards := false } }

def c9Env : JobEnv := c2EnvA

/-- A banned user whose every dialog flag is simultaneously set. -/
def c10St : BotState :=
  { banned := true, awaitingCode := true, awaitingPassword := true,
    awaitingBroadcast := true, isOwner := true, awaitingSourceForward := true,
    awaitingDestinationForward := true, awaitingLogin := true }

/-- A private forwarded message whose text is a command. -/
def c10Msg : PrivMsg := { isPrivate := true, isForward := true, text := some "/start" }

/-! ## Helper lemmas -/

/-- A drain-loop iteration makes no executor call exactly when the user
client was unavailable (main.py 266-269); on every other path at least one
executor call is made. -/
theorem processJob_calls_isEmpty (j : Job) (e : JobEnv) :
    (processJob j e).execCalls.isEmpty = !e.clientAvailable := by
  unfold processJob
  cases hc : e.clientAvailable
  · simp [hc]
  · simp only [hc, Bool.not_true, Bool.false_eq_true, if_false]
    split
    · simp
    · split <;> simp

/-- Warn-time lower bound and spacing for a cooldown already armed at `t0`,
fed monotone event times not earlier than `t0`. -/
theorem runCooldown_some_spaced (ts : List Nat) : ∀ (t0 : Nat),
    List.Pairwise (· ≤ ·) ts → (∀ x ∈ ts, t0 ≤ x) →
    List.Pairwise (fun a b => a + 300 ≤ b) (runCooldown (some t0) ts) ∧
    (∀ w ∈ runCooldown (some t0) ts, t0 + 300 ≤ w) := by
  induction ts with
  | nil => intro t0 _ _; simp [runCooldown]
  | cons t ts ih =>
    intro t0 hs hlb
    have hpw := List.pairwise_cons.mp hs
    have ht0t : t0 ≤ t := hlb t (by simp)
    by_cases h : t - t0 < 300
    · have hstep : runCooldown (some t0) (t :: ts) = runCooldown (some t0) ts := by
        simp [runCooldown, cooldownStep, h]
      rw [hstep]
      exact ih t0 hpw.2 (fun x hx => hlb x (by simp [hx]))
    · have hstep : runCooldown (some t0) (t :: ts) = t :: runCooldown (some t) ts := by
        simp [runCooldown, cooldownStep, h]
      have h300 : t0 + 300 ≤ t := by omega
      have hrec := ih t hpw.2 hpw.1
      rw [hstep]
      constructor
      · exact List.pairwise_cons.mpr ⟨fun w hw => hrec.2 w hw, hrec.1⟩
      · intro w hw
        rcases List.mem_cons.mp hw with rfl | hw2
        · exact h300
        · exact le_trans (by omega) (hrec.2 w hw2)

/-- Every temporary file the upload retry loop creates is a thumbnail. -/
theorem uploadLoop_created_thumbs (media : Media) (env : ExecEnv) (text : String) :
    ∀ (fuel i : Nat), ∀ t ∈ (uploadLoop media env text fuel i).created,
      ∃ k, t = FileTag.thumbFile k := by
  intro fuel
  induction fuel with
  | zero => intro i t ht; simp [uploadLoop] at ht
  | succ n ih =>
    intro i t ht
    unfold uploadLoop at ht
    by_cases hu : env.uploadOk i = true
    · simp only [hu, if_true] at ht
      by_cases hth : (media.extractsThumb && env.thumbOk i) = true
      · simp [hth] at ht
        exact ⟨i, ht⟩
      · simp [hth] at ht
    · simp only [hu, Bool.false_eq_true, if_false] at ht
      by_cases hth : (media.extractsThumb && env.thumbOk i) = true
      · simp only [hth, if_true, List.mem_append] at ht
        rcases ht with ht | ht
        · simp at ht; exact ⟨i, ht⟩
        · exact ih (i + 1) t ht
      · simp only [hth, Bool.false_eq_true, if_false, List.nil_append] at ht
        exact ih (i + 1) t ht

/-- Under distinct task identities, looking up a recorded task's identity
returns that task's completion status. -/
theorem widDoneIn_mem (l : List WorkerRec)
    (hp : List.Pairwise (fun a b => a.wid ≠ b.wid) l)
    (w : WorkerRec) (hw : w ∈ l) : widDoneIn l w.wid = w.done := by
  induction l with
  | nil => cases hw
  | cons a tl ih =>
    have hpc := List.pairwise_cons.mp hp
    rcases List.mem_cons.mp hw with rfl | h
    · simp [widDoneIn]
    · have hne : a.wid ≠ w.wid := hpc.1 w h
      simp only [widDoneIn, hne, if_false]
      exact ih hpc.2 h

/-- When the check-and-create guard of main.py 1647 fires, the user has no
running processor task: either no task is stored, or the stored one is done,
and by the invariant any running task would be the stored one. -/
theorem needSpawn_no_live (st : SupSt) (uid : Nat) (hinv : SupInv st)
    (hns : needSpawn st uid = true) :
    ∀ w ∈ st.workers, w.uid = uid → w.done = true := by
  intro w hw huid
  cases hbd : w.done
  · exfalso
    have hh := hinv.2.2 w hw hbd
    rw [huid] at hh
    unfold needSpawn at hns
    rw [hh] at hns
    simp only [] at hns
    have hwd := widDoneIn_mem st.workers hinv.2.1 w hw
    rw [hns] at hwd
    rw [hbd] at hwd
    exact Bool.true_eq_false.mp hwd
  · rfl

/-- Every supervisor event preserves the invariant. The route case relies on
the guard of main.py 1647 executing atomically with the `create_task` of
main.py 1648 (no await point separates them on the single asyncio loop). -/
theorem supInv_apply (st : SupSt) (e : SupEvent) (hinv : SupInv st) :
    SupInv (applyEvent st e) := by
  obtain ⟨hb, hd, hh⟩ := hinv
  cases e with
  | route uid jid =>
    show SupInv (routeEv st uid jid)
    unfold routeEv
    by_cases hns : needSpawn st uid = true
    · simp only [hns, if_true]
      refine ⟨?_, ?_, ?_⟩
      · intro w hw
        rcases List.mem_cons.mp hw with rfl | h
        · exact Nat.lt_succ_self _
        · exact Nat.lt_succ_of_lt (hb w h)
      · refine List.pairwise_cons.mpr ⟨?_, hd⟩
        intro w hw heq
        have heq2 : st.nextWid = w.wid := heq
        have := hb w hw
        omega
      · intro w hw hdone
        rcases List.mem_cons.mp hw with rfl | h
        · simp
        · have huid : w.uid ≠ uid := by
            intro he
            have hwd := needSpawn_no_live st uid ⟨hb, hd, hh⟩ hns w h he
            rw [hdone] at hwd
            exact Bool.false_ne_true hwd
          have hhw := hh w h hdone
          simp [huid, hhw]
    · have hns2 : needSpawn st uid = false := by
        cases h : needSpawn st uid
        · rfl
        · exact absurd h hns
      simp only [hns2, Bool.false_eq_true, if_false]
      exact ⟨hb, hd, hh⟩
  | workerDone wid =>
    show SupInv { st with workers := st.workers.map (setDone wid) }
    refine ⟨?_, ?_, ?_⟩
    · intro w hw
      rcases List.mem_map.mp hw with ⟨w0, hw0, rfl⟩
      have hwid : (setDone wid w0).wid = w0.wid := by
        unfold setDone; split <;> rfl
      rw [hwid]
      exact hb w0 hw0
    · rw [List.pairwise_map]
      refine hd.imp ?_
      intro a b hab
      have ha : (setDone wid a).wid = a.wid := by unfold setDone; split <;> rfl
      have hbw : (setDone wid b).wid = b.wid := by unfold setDone; split <;> rfl
      rw [ha, hbw]; exact hab
    · intro w hw hdone
      rcases List.mem_map.mp hw with ⟨w0, hw0, rfl⟩
      by_cases hcase : w0.wid = wid
      · exfalso
        simp [setDone, hcase] at hdone
      · have heq : setDone wid w0 = w0 := by simp [setDone, hcase]
        rw [heq] at hdone ⊢
        exact hh w0 hw0 hdone
  | shutdown uid =>
    show SupInv { st with workers := st.workers.map (setDoneUser uid),
                          handle := fun u => if u = uid then none else st.handle u,
                          queues := fun u => if u = uid then [] else st.queues u }
    refine ⟨?_, ?_, ?_⟩
    · intro w hw
      rcases List.mem_map.mp hw with ⟨w0, hw0, rfl⟩
      have hwid : (setDoneUser uid w0).wid = w0.wid := by
        unfold setDoneUser; split <;> rfl
      rw [hwid]
      exact hb w0 hw0
    · rw [List.pairwise_map]
      refine hd.imp ?_
      intro a b hab
      have ha : (setDoneUser uid a).wid = a.wid := by unfold setDoneUser; split <;> rfl
      have hbw : (setDoneUser uid b).wid = b.wid := by unfold setDoneUser; split <;> rfl
      rw [ha, hbw]; exact hab
    · intro w hw hdone
      rcases List.mem_map.mp hw with ⟨w0, hw0, rfl⟩
      by_cases hcase : w0.uid = uid
      · exfalso
        simp [setDoneUser, hcase] at hdone
      · have heq : setDoneUser uid w0 = w0 := by simp [setDoneUser, hcase]
        rw [heq] at hdone ⊢
        have hhw := hh w0 hw0 hdone
        simp [hcase, hhw]

/-- The invariant holds at startup. -/
theorem supInv_init : SupInv supInit := by
  refine ⟨?_, ?_, ?_⟩ <;> simp [supInit]

/-- The invariant holds after any event sequence from any invariant state. -/
theorem supInv_foldl (es : List SupEvent) : ∀ (st : SupSt), SupInv st →
    SupInv (es.foldl applyEvent st) := by
  induction es with
  | nil => intro st h; exact h
  | cons e tl ih => intro st h; exact ih _ (supInv_apply st e h)

/-- Under the invariant, at most one processor task per user is running. -/
theorem liveCount_le_one (st : SupSt) (uid : Nat) (hinv : SupInv st) :
    liveCount st uid ≤ 1 := by
  obtain ⟨hb, hd, hh⟩ := hinv
  unfold liveCount
  cases hfl : st.workers.filter (isLiveFor uid) with
  | nil => simp
  | cons a tl =>
    cases tl with
    | nil => simp
    | cons b tl2 =>
      exfalso
      have hsub : List.Sublist (st.workers.filter (isLiveFor uid)) st.workers :=
        List.filter_sublist _
      have hpw : List.Pairwise (fun x y => x.wid ≠ y.wid)
          (st.workers.filter (isLiveFor uid)) :=
        List.Pairwise.sublist hsub hd
      rw [hfl] at hpw
      have hab : a.wid ≠ b.wid := (List.pairwise_cons.mp hpw).1 b (by simp)
      have ha : a ∈ st.workers.filter (isLiveFor uid) := by rw [hfl]; simp
      have hbm : b ∈ st.workers.filter (isLiveFor uid) := by rw [hfl]; simp
      have ha2 := List.mem_filter.mp ha
      have hb2 := List.mem_filter.mp hbm
      have ha3 : a.uid = uid ∧ a.done = false := by
        have hx := ha2.2
        simp [isLiveFor] at hx
        exact hx
      have hb3 : b.uid = uid ∧ b.done = false := by
        have hx := hb2.2
        simp [isLiveFor] at hx
        exact hx
      have h1 := hh a ha2.1 ha3.2
      have h2 := hh b hb2.1 hb3.2
      rw [ha3.1] at h1
      rw [hb3.1] at h2
      rw [h1] at h2
      exact hab (Option.some.inj h2)

/-! ## Claim theorems -/

/-- C1, counterexample: a copy-mode media job whose download fails all 3
attempts and whose nonempty caption is then sent alone (main.py 2031-2042)
still reaches `db.increment_forwards()` (main.py 309) — the counter is
incremented although full delivery did not succeed, contradicting the claim
that it is never incremented when the delivery failed. -/
theorem c1_counterexample :
    (processJob c1Job c1Env).incremented = true ∧
    (processJob c1Job c1Env).sends =
      [SendEvent.progressMessage, SendEvent.textSend "caption"] ∧
    SendEvent.mediaSend (some "caption") ∉ (processJob c1Job c1Env).sends := by
  decide

/-- C1 (amended): the forwarded-message counter is incremented exactly when
the user client was available and the executor call chain for the job
returned without raising — which includes degraded deliveries (caption-only
send after download failure, media copy whose upload failed), not only full
transfers; it is never incremented when the executor raises or the client is
unavailable. -/
theorem c1_counter_incremented_iff_executor_returns (job : Job) (env : JobEnv) :
    (processJob job env).incremented =
      (env.clientAvailable && executorReturnsNormally job env) := by
  unfold processJob executorReturnsNormally
  cases hc : env.clientAvailable
  · simp [hc]
  · simp only [hc, Bool.not_true, Bool.false_eq_true, if_false, Bool.true_and]
    split
    · rfl
    · split <;> rfl

/-- C2, counterexample: with two jobs enqueued in order and the user client
unavailable while the first is processed (main.py 266-269), the executor is
invoked only on the second job — the first is skipped, contradicting the
claim that the executor is invoked on j1..jN with no skipping. -/
theorem c2_counterexample :
    invokedJobs [some (c2Job1, c2EnvU), some (c2Job2, c2EnvA)] = [c2Job2] ∧
    invokedJobs [some (c2Job1, c2EnvU), some (c2Job2, c2EnvA)] ≠ [c2Job1, c2Job2] := by
  decide

/-- C2 (amended): for every sequence of jobs enqueued for one user, the
executor is invoked in exactly arrival order on precisely those jobs for
which the user client was available; a job whose client lookup fails is
skipped, and no reordering ever occurs. -/
theorem c2_fifo_on_available_jobs (l : List (Job × JobEnv)) :
    invokedJobs (l.map some) =
      (l.filter fun p => p.2.clientAvailable).map Prod.fst := by
  induction l with
  | nil => rfl
  | cons p rest ih =>
    obtain ⟨j, e⟩ := p
    have hcalls := processJob_calls_isEmpty j e
    cases hc : e.clientAvailable
    · rw [hc] at hcalls
      simp [invokedJobs, hcalls, List.filter_cons, hc, ih]
    · rw [hc] at hcalls
      simp [invokedJobs, hcalls, List.filter_cons, hc, ih]

/-- C3: after any sequence of supervisor events (routing matched messages,
worker completions, logout teardowns), at most one processor task per user
is running, so no two executor invocations for one user are ever in flight
concurrently and no two workers consume one user's queue: route
(main.py 1647-1648) creates a task only when none is stored or the stored
one is done, atomically on the single asyncio loop. -/
theorem c3_single_worker_invariant (es : List SupEvent) (uid : Nat) :
    liveCount (runSup es) uid ≤ 1 :=
  liveCount_le_one _ _ (supInv_foldl es supInit supInv_init)

/-- C4: a job whose executor call raises is caught at the per-job boundary
(main.py 315-318) and the drain loop still processes every later job of the
same queue; and routing a job for one user leaves every other user's queue
and processor handle untouched. -/
theorem c4_failure_isolation :
    (∀ (xs : List (Option (Job × JobEnv))) (j : Job) (e : JobEnv)
        (ys : List (Option (Job × JobEnv))),
        (∀ x ∈ xs, x ≠ none) → (processJob j e).raised = true →
        drainLoop (xs ++ some (j, e) :: ys) =
          drainLoop xs ++ processJob j e :: drainLoop ys) ∧
    (∀ (st : SupSt) (uid jid v : Nat), v ≠ uid →
        (applyEvent st (SupEvent.route uid jid)).queues v = st.queues v ∧
        (applyEvent st (SupEvent.route uid jid)).handle v = st.handle v) := by
  constructor
  · intro xs j e ys hx hr
    induction xs with
    | nil => rfl
    | cons x rest ih =>
      cases x with
      | none => exact absurd rfl (hx none (by simp))
      | some p =>
        obtain ⟨j2, e2⟩ := p
        simp only [List.cons_append]
        show processJob j2 e2 :: drainLoop (rest ++ some (j, e) :: ys) = _
        rw [ih (fun y hy => hx y (by simp [hy]))]
        rfl
  · intro st uid jid v hv
    show (routeEv st uid jid).queues v = st.queues v ∧
      (routeEv st uid jid).handle v = st.handle v
    unfold routeEv
    by_cases hns : needSpawn st uid = true
    · simp [hns, hv]
    · have hns2 : needSpawn st uid = false := by
        cases h : needSpawn st uid
        · rfl
        · exact absurd h hns
      simp [hns2, hv]

/-- C5: a job whose message carries the protocol-level no-forward flag is
never reference-forwarded; whenever the client is available the executor
performs exactly one copy call with `force_download = True`, regardless of
the configured forward mode (main.py 274-289). -/
theorem c5_restricted_forces_copy (job : Job) (env : JobEnv)
    (h : job.msg.noforwards = true) :
    ExecCall.forwardCall ∉ (processJob job env).execCalls ∧
    (env.clientAvailable = true →
      (processJob job env).execCalls = [ExecCall.copyCall true]) := by
  have hr : isRestricted job.msg = true := by simp [isRestricted, h]
  unfold processJob
  cases hc : env.clientAvailable <;> simp [hc, hr]

/-- C6: on a forward-mode unrestricted job whose reference-forward raises,
the executor falls back to one copy call with `force_download = True`
(main.py 298-305), and the job's outcome — including whether the counter is
incremented — is that of the fallback copy, not a failure of the job. -/
theorem c6_forward_fallback_to_copy (job : Job) (env : JobEnv)
    (hm : job.forwardMode ≠ "copy") (hr : isRestricted job.msg = false)
    (hc : env.clientAvailable = true) (hf : env.forwardOk = false) :
    (processJob job env).execCalls = [ExecCall.forwardCall, ExecCall.copyCall true] ∧
    (processJob job env).incremented =
      !(copyMessageWithMedia job.msg env.fallbackEnv).raised := by
  unfold processJob
  simp [hm, hr, hc, hf]

/-- C7: a repeat unmatched event for a channel within 300 seconds of its
last warning produces no warning and leaves the cooldown map unchanged
(main.py 1607-1613); and over any monotone sequence of unmatched events, any
two emitted warnings are at least 300 seconds apart, so at most one
"ignored" event occurs per 300-second window. -/
theorem c7_cooldown_window :
    (∀ t0 t : Nat, t - t0 < 300 → cooldownStep (some t0) t = (false, some t0)) ∧
    (∀ ts : List Nat, List.Pairwise (· ≤ ·) ts →
      List.Pairwise (fun a b => a + 300 ≤ b) (runCooldown none ts)) := by
  constructor
  · intro t0 t h
    simp [cooldownStep, h]
  · intro ts hs
    cases ts with
    | nil => simp [runCooldown]
    | cons t ts =>
      have hpw := List.pairwise_cons.mp hs
      have hstep : runCooldown none (t :: ts) = t :: runCooldown (some t) ts := by
        simp [runCooldown, cooldownStep]
      rw [hstep]
      have hrec := runCooldown_some_spaced ts t hpw.2 hpw.1
      exact List.pairwise_cons.mpr ⟨fun w hw => hrec.2 w hw, hrec.1⟩

/-- C7, witness: at concrete inputs — a repeat event 10 seconds after a
warning is silently dropped, and a burst at times 0, 100, 400 warns only at
times at least 300 apart. -/
theorem c7_cooldown_window_witness :
    cooldownStep (some 10) 20 = (false, some 10) ∧
    List.Pairwise (fun a b => a + 300 ≤ b) (runCooldown none [0, 100, 400]) :=
  ⟨c7_cooldown_window.1 10 20 (by decide),
   c7_cooldown_window.2 [0, 100, 400] (by decide)⟩

/-- C8, counterexample: for a captioned document with thumbnails whose
download succeeds and whose three upload attempts all fail, the three
extracted thumbnail files remain on disk after the executor returns
(cleanup at main.py 1969-1975 runs only on upload success), contradicting
the claim that no temporary file remains on every exit path. -/
theorem c8_counterexample :
    filesRemaining (copyMessageWithMedia c8Msg c8Env) =
      [FileTag.thumbFile 0, FileTag.thumbFile 1, FileTag.thumbFile 2] ∧
    filesRemaining (copyMessageWithMedia c8Msg c8Env) ≠ [] := by
  decide

/-- C8 (amended): after the executor returns, the downloaded media file
never remains on disk (main.py 2025-2030 removes it on success and failure
alike), but extracted thumbnails may: every file that can remain is a
thumbnail extracted by a failed upload attempt. -/
theorem c8_cleanup_amended (m : Message) (env : ExecEnv) :
    FileTag.mediaFile ∉ filesRemaining (copyMessageWithMedia m env) ∧
    ∀ t ∈ filesRemaining (copyMessageWithMedia m env),
      ∃ k, t = FileTag.thumbFile k := by
  simp only [filesRemaining]
  rcases hm : m.media with _ | media
  · have h : (copyMessageWithMedia m env).filesCreated = [] := by
      simp [copyMessageWithMedia, hm, apply_ite ExecResult.filesCreated]
    constructor
    · intro hx
      have := (List.mem_filter.mp hx).1
      rw [h] at this
      cases this
    · intro t ht
      have := (List.mem_filter.mp ht).1
      rw [h] at this
      cases this
  · by_cases hd : anyAttemptOk env.downloadOk maxDownloadRetries 0 = true
    · have hcreated : (copyMessageWithMedia m env).filesCreated =
          FileTag.mediaFile ::
            (uploadLoop media env (getText m) maxUploadRetries 0).created := by
        simp [copyMessageWithMedia, hm, hd]
      have hdeleted : (copyMessageWithMedia m env).filesDeleted =
          (uploadLoop media env (getText m) maxUploadRetries 0).deleted ++
            [FileTag.mediaFile] := by
        simp [copyMessageWithMedia, hm, hd]
      constructor
      · intro hx
        have h2 := (List.mem_filter.mp hx).2
        rw [hdeleted] at h2
        simp at h2
      · intro t ht
        have h1 := (List.mem_filter.mp ht).1
        have h2 := (List.mem_filter.mp ht).2
        rw [hcreated] at h1
        rcases List.mem_cons.mp h1 with rfl | h1b
        · exfalso
          rw [hdeleted] at h2
          simp at h2
        · exact uploadLoop_created_thumbs media env (getText m) maxUploadRetries 0 t h1b
    · have hd2 : anyAttemptOk env.downloadOk maxDownloadRetries 0 = false := by
        cases hx : anyAttemptOk env.downloadOk maxDownloadRetries 0
        · rfl
        · exact absurd hx hd
      have h : (copyMessageWithMedia m env).filesCreated = [] := by
        simp [copyMessageWithMedia, hm, hd2, apply_ite ExecResult.filesCreated]
      constructor
      · intro hx
        have := (List.mem_filter.mp hx).1
        rw [h] at this
        cases this
      · intro t ht
        have := (List.mem_filter.mp ht).1
        rw [h] at this
        cases this

/-- C9: a matched copy-mode job whose message has no media and no
text/caption makes the executor send nothing and return normally
(main.py 2077-2078), the job completes without raising, and the forward
counter is still incremented for it (main.py 309). -/
theorem c9_empty_message_completes_and_increments (job : Job) (env : JobEnv)
    (hmode : job.forwardMode = "copy") (hmedia : job.msg.media = none)
    (htext : getText job.msg = "") (hc : env.clientAvailable = true) :
    (copyMessageWithMedia job.msg env.copyEnv).sends = [] ∧
    (copyMessageWithMedia job.msg env.copyEnv).raised = false ∧
    (processJob job env).incremented = true ∧
    (processJob job env).raised = false := by
  have hcopy : copyMessageWithMedia job.msg env.copyEnv =
      { sends := [], filesCreated := [], filesDeleted := [], raised := false } := by
    simp [copyMessageWithMedia, hmedia, htext]
  refine ⟨by rw [hcopy], by rw [hcopy], ?_, ?_⟩ <;>
    · unfold processJob
      simp [hmode, hc, hcopy]

/-- C10: every private message from a banned user is answered with the ban
notice alone — the ban check at main.py 412-434 returns before command
dispatch, login-state handlers, broadcast handling, and channel setup, even
when every dialog flag is set. -/
theorem c10_banned_only_ban_notice (st : BotState) (m : PrivMsg)
    (hp : m.isPrivate = true) (hb : st.banned = true) :
    handleNewMessage st m = BotAction.banNotice := by
  simp [handleNewMessage, hp, hb]

/-- C4, witness: a concrete copy-mode job whose executor raises (all
delivery calls fail) is still caught, and the drain-loop equation and the
cross-user isolation hold at concrete inputs. -/
theorem c4_failure_isolation_witness :
    (processJob c4Job c4Env).raised = true ∧
    drainLoop ([] ++ some (c4Job, c4Env) :: []) =
      drainLoop [] ++ processJob c4Job c4Env :: drainLoop [] ∧
    (applyEvent supInit (SupEvent.route 1 7)).queues 0 = supInit.queues 0 :=
  ⟨by decide,
   c4_failure_isolation.1 [] c4Job c4Env [] (by simp) (by decide),
   (c4_failure_isolation.2 supInit 1 7 0 (by decide)).1⟩

/-- C5, witness: a concrete forward-mode job with `noforwards` set is
executed as exactly one forced copy call. -/
theorem c5_restricted_forces_copy_witness :
    ExecCall.forwardCall ∉ (processJob c5Job c5Env).execCalls ∧
    (processJob c5Job c5Env).execCalls = [ExecCall.copyCall true] :=
  ⟨(c5_restricted_forces_copy c5Job c5Env (by decide)).1,
   (c5_restricted_forces_copy c5Job c5Env (by decide)).2 (by decide)⟩

/-- C6, witness: a concrete forward-mode job whose forward raises is retried
as a forced copy, whose success increments the counter. -/
theorem c6_forward_fallback_to_copy_witness :
    (processJob c6Job c6Env).execCalls =
      [ExecCall.forwardCall, ExecCall.copyCall true] ∧
    (processJob c6Job c6Env).incremented =
      !(copyMessageWithMedia c6Job.msg c6Env.fallbackEnv).raised :=
  c6_forward_fallback_to_copy c6Job c6Env (by decide) (by decide) (by decide)
    (by decide)

/-- C9, witness: a concrete copy-mode job with neither media nor text sends
nothing, returns normally, and increments the counter. -/
theorem c9_empty_message_completes_and_increments_witness :
    (copyMessageWithMedia c9Job.msg c9Env.copyEnv).sends = [] ∧
    (copyMessageWithMedia c9Job.msg c9Env.copyEnv).raised = false ∧
    (processJob c9Job c9Env).incremented = true ∧
    (processJob c9Job c9Env).raised = false :=
  c9_empty_message_completes_and_increments c9Job c9Env (by decide) (by decide)
    (by decide) (by decide)

/-- C10, witness: a banned user's private message — a forwarded command with
every dialog flag simultaneously set — gets only the ban notice. -/
theorem c10_banned_only_ban_notice_witness :
    handleNewMessage c10St c10Msg = BotAction.banNotice :=
  c10_banned_only_ban_notice c10St c10Msg (by decide) (by decide)
